import Mathlib

/-!
Verification of the HowAreYou journal service against its specification.

The development shallowly embeds the JavaScript sources:
  * `db.js` — `insertEntry`, `getDailyMood` (mood aggregation SQL);
  * the web server (`server.js` variant with the mime table and stats route) —
    `guessApiFilename`, the `POST /api/journal` handler pipeline with its
    cost heuristic and `finally` cleanup;
  * `code/transcribe.js` — `transcribeWithRetry` and its retryability
    classification.

Conventions: JavaScript `undefined`/`null` optional values are `Option`;
machine timestamps are `Nat` seconds since the epoch with day-level
truncation being division by `dayLength`; money is exact `ℚ`; fallible
operations are `Except`.  External collaborators (the OpenAI transport,
`JSON.parse`/`JSON.stringify`, Postgres row storage) are parameters, while
everything the repository itself computes is translated definitionally.
-/

/-- Seconds in one calendar day; `date_trunc('day', t)` is modelled as
`t / dayLength * dayLength`, and the day index of an instant as
`t / dayLength`. -/
def dayLength : Nat := 86400

/-- Day index (number of whole days since the epoch) of the current instant:
the day-level truncation performed by `date_trunc('day', now())`. -/
def todayIndex (now : Nat) : Int := ((now / dayLength : Nat) : Int)

/-- Whether the character list `pat` occurs contiguously at the head of `s`. -/
def startsWithChars : List Char → List Char → Bool
  | [], _ => true
  | _ :: _, [] => false
  | a :: as, b :: bs => a = b && startsWithChars as bs

/-- Whether the character list `pat` occurs contiguously anywhere in `s`. -/
def hasSubstr (pat : List Char) : List Char → Bool
  | [] => startsWithChars pat []
  | c :: rest => startsWithChars pat (c :: rest) || hasSubstr pat rest

/-- Lower-cased character list of a string (characterwise `toLowerCase`). -/
def lowerChars (s : String) : List Char := s.toList.map Char.toLower

/-- Case-insensitive substring test: the model of `/pat/i.test(s)` for the
plain-literal patterns used by the sources (every regex in the repository is
an alternation of literal substrings, so `test` is exactly "some alternative
occurs as a substring, ignoring case"). -/
def ciMatches (pat s : String) : Bool :=
  hasSubstr (lowerChars pat) (lowerChars s)

/-- Model of the JavaScript expression `x || dflt` for string-valued `x`:
`undefined` and the empty string are falsy and fall through to the default. -/
def jsStrOr (x : Option String) (dflt : String) : String :=
  match x with
  | none => dflt
  | some s => if s = "" then dflt else s

/-! ## db.js: `insertEntry` -/

/-- The field set passed to `insertEntry` (`JournalEntry` minus `id` and
`created_at`).  A `none` models a JavaScript field that is absent,
`undefined` or `null` — `insertEntry` collapses all three to SQL `NULL` via
`?? null` / `== null ? null : Number(x)`. -/
structure InsertInput where
  user_id : Option String
  mood : Option Int
  summary : Option String
  transcript : Option String
  advice : Option String
  audio_path : Option String
  model_asr : Option String
  model_analysis : Option String
  ms_elapsed : Option Int
  project_id : Option String
  tokens_input : Option Int
  tokens_output : Option Int
  duration_seconds : Option Int
  cost_estimate_usd : Option ℚ
  deriving DecidableEq, Repr

/-- One stored row of the `journal_entries` table: the insert columns plus
the generated `id` and the datastore-assigned `created_at`. -/
structure DbRow where
  id : String
  created_at : Nat
  user_id : Option String
  mood : Option Int
  summary : Option String
  transcript : Option String
  advice : Option String
  audio_path : Option String
  model_asr : Option String
  model_analysis : Option String
  ms_elapsed : Option Int
  project_id : Option String
  tokens_input : Option Int
  tokens_output : Option Int
  duration_seconds : Option Int
  cost_estimate_usd : Option ℚ
  deriving DecidableEq, Repr

/-- Embedding of `insertEntry(e)` from `db.js`: build the parameter row
(`id` freshly generated, each optional field defaulted to SQL `NULL` by
`?? null`), execute `INSERT ... RETURNING *`, and return `rows[0]`.  The
datastore is a row list; `id` stands for the `crypto.randomUUID()` result
and `createdAt` for the datastore-assigned timestamp.  Result: the returned
row and the updated table. -/
def insertEntry (e : InsertInput) (db : List DbRow) (id : String)
    (createdAt : Nat) : DbRow × List DbRow :=
  let row : DbRow :=
    { id := id
      created_at := createdAt
      user_id := e.user_id
      mood := e.mood
      summary := e.summary
      transcript := e.transcript
      advice := e.advice
      audio_path := e.audio_path
      model_asr := e.model_asr
      model_analysis := e.model_analysis
      ms_elapsed := e.ms_elapsed
      project_id := e.project_id
      tokens_input := e.tokens_input
      tokens_output := e.tokens_output
      duration_seconds := e.duration_seconds
      cost_estimate_usd := e.cost_estimate_usd }
  (row, db ++ [row])

/-! ## db.js: `getDailyMood` -/

/-- One element of the daily mood series: the SQL row
`{day, avg_mood}` with the day kept as a day index (the textual rendering
`d::text` is presentation only). -/
structure MoodRow where
  day : Int
  avg_mood : ℚ
  deriving DecidableEq, Repr

/-- The `LEFT JOIN` condition of the aggregation query:
`e.created_at >= d AND e.created_at < d + interval '1 day'`, with `d` the
start of the calendar day of index `d`. -/
def entryInDayWindow (r : DbRow) (d : Int) : Bool :=
  decide (d * (dayLength : Int) ≤ (r.created_at : Int)) &&
    decide ((r.created_at : Int) < (d + 1) * (dayLength : Int))

/-- The optional tenant condition `AND e.user_id = $1` (SQL equality, so a
`NULL` `user_id` never matches). -/
def tenantMatch (tenant : Option String) (r : DbRow) : Bool :=
  match tenant with
  | none => true
  | some u => r.user_id == some u

/-- The `mood` values fed to `AVG` for day `d`: entries joined to the day
(and to the tenant when filtered) whose `mood` is not `NULL` (`AVG` ignores
SQL `NULL`s). -/
def moodsOn (db : List DbRow) (tenant : Option String) (d : Int) : List Int :=
  (db.filter (fun r => entryInDayWindow r d && tenantMatch tenant r)).filterMap
    (fun r => r.mood)

/-- The per-day value `COALESCE(AVG(e.mood), 0)`: the exact arithmetic mean
(`Rat.divInt` of the sum by the count, an exact rational as Postgres
`numeric` averaging of integers is exact) when at least one joined entry
carries a mood, explicit `0` otherwise. -/
def avgOrZero (ms : List Int) : ℚ :=
  if ms.isEmpty then 0 else Rat.divInt ms.sum (ms.length : Int)

/-- The day series and grouped averages of the aggregation query:
`generate_series` produces the `n` calendar days ending at `today`
(ascending), and each day is paired with its coalesced average.  `GROUP BY d
ORDER BY d` preserves this ascending day order. -/
def dailyMoodRows (db : List DbRow) (today : Int) (n : Nat)
    (tenant : Option String) : List MoodRow :=
  (List.range n).map (fun (k : Nat) =>
    let d : Int := today - ((n : Int) - 1) + (k : Int)
    { day := d, avg_mood := avgOrZero (moodsOn db tenant d) })

/-- The day-count normalization `Math.min(Math.max(Number(days) || 14, 1), 90)`
used by `getDailyMood`; note `Number(0) || 14` is `14`, so a requested `0`
becomes the default before the clamp to `[1, 90]` is applied. -/
def clampDays (days : Int) : Int :=
  min (max (if days = 0 then 14 else days) 1) 90

/-- Embedding of `getDailyMood(days, userId)` from `db.js`.
The day count is normalized by `clampDays`.
`userId ? "AND e.user_id = $1" : ""` treats an empty string as no
filter.  The SQL text references `$2::int` (the day count) unconditionally
but the parameter array is `[maxDays]` when no tenant filter is present, so
the prepared statement then requires two bound parameters while only one is
supplied and Postgres rejects the query; this bind mismatch is modelled by
the parameter-count guard. -/
def getDailyMood (db : List DbRow) (now : Nat) (days : Int)
    (userId : Option String) : Except String (List MoodRow) :=
  let maxDays : Int := clampDays days
  let tenant : Option String :=
    match userId with
    | none => none
    | some u => if u = "" then none else some u
  let suppliedParams : Nat := match tenant with | some _ => 2 | none => 1
  if suppliedParams = 2 then
    Except.ok (dailyMoodRows db (todayIndex now) maxDays.toNat tenant)
  else
    Except.error
      "bind message supplies 1 parameters, but prepared statement requires 2"

/-! ## server.js: mime table and filename hint -/

/-- Embedding of `guessApiFilename(mime, fallback)` from the upload handler:
`!mime` (absent or empty) yields the fallback, then the fixed
case-insensitive mime table is tried in order, and a mime matching no
pattern also yields the fallback. -/
def guessApiFilename (mime : Option String) (fallback : String) : String :=
  match mime with
  | none => fallback
  | some m =>
    if m = "" then fallback
    else if ciMatches "mp4" m || ciMatches "aac" m then "audio.mp4"
    else if ciMatches "webm" m then "audio.webm"
    else if ciMatches "ogg" m || ciMatches "opus" m then "audio.ogg"
    else if ciMatches "mpeg" m || ciMatches "mp3" m then "audio.mp3"
    else if ciMatches "wav" m then "audio.wav"
    else fallback

/-- The call site in the journal handler:
`guessApiFilename(req.file?.mimetype, req.file?.originalname || "audio.mp3")`. -/
def apiFilenameHint (mime orig : Option String) : String :=
  guessApiFilename mime (jsStrOr orig "audio.mp3")

/-- Written from the claim, for comparison with `apiFilenameHint`: the mime
table with "a mime matching none of these yields audio.mp3", the fallback to
`originalNameHint` being taken only when no mime is supplied. -/
def filenameHintClaim (mime orig : Option String) : String :=
  match mime with
  | none => jsStrOr orig "audio.mp3"
  | some m =>
    if ciMatches "mp4" m || ciMatches "aac" m then "audio.mp4"
    else if ciMatches "webm" m then "audio.webm"
    else if ciMatches "ogg" m || ciMatches "opus" m then "audio.ogg"
    else if ciMatches "mpeg" m || ciMatches "mp3" m then "audio.mp3"
    else if ciMatches "wav" m then "audio.wav"
    else "audio.mp3"

/-- Written from the amended claim: the fixed table, with a mime matching no
pattern falling back to `originalNameHint` (or the default `audio.mp3`)
exactly as when no mime is supplied. -/
def filenameHintAmended (mime orig : Option String) : String :=
  let fb := jsStrOr orig "audio.mp3"
  match mime with
  | none => fb
  | some m =>
    if ciMatches "mp4" m || ciMatches "aac" m then "audio.mp4"
    else if ciMatches "webm" m then "audio.webm"
    else if ciMatches "ogg" m || ciMatches "opus" m then "audio.ogg"
    else if ciMatches "mpeg" m || ciMatches "mp3" m then "audio.mp3"
    else if ciMatches "wav" m then "audio.wav"
    else fb

/-! ## server.js: cost heuristic -/

/-- Input token estimate `Math.ceil((transcription.text?.length || 0) / 4)`. -/
def estimateTokensIn (text : String) : Nat := (text.length + 3) / 4

/-- Output token estimate `Math.ceil(JSON.stringify(analysis).length / 4)`,
as a function of the serialized analysis string. -/
def estimateTokensOut (serialized : String) : Nat := (serialized.length + 3) / 4

/-- Rounding to four decimal places: `Number(x.toFixed(4))`, modelled as
round-to-nearest on exact rationals. -/
def round4 (q : ℚ) : ℚ := ((round (q * 10000) : ℤ) : ℚ) / 10000

/-- The cost estimate of the journal handler:
`(inputTokens / 1e6) * 0.6 + (outputTokens / 1e6) * 2.4`, rounded to four
decimal places (prices in USD per million tokens, hardcoded in the source). -/
def estimateCostUsd (text serialized : String) : ℚ :=
  round4 ((estimateTokensIn text : ℚ) / 1000000 * (6 / 10) +
    (estimateTokensOut serialized : ℚ) / 1000000 * (24 / 10))

/-! ## server.js: the POST /api/journal pipeline -/

/-- The fields of the parsed analysis JSON that the handler reads
(`analysis.mood`, `analysis.summary`, `analysis.advice`); a `none` models a
field absent from the parsed object. -/
structure AnalysisJson where
  mood : Option Int
  summary : Option String
  advice : Option String
  deriving DecidableEq, Repr

/-- Outcomes of the external collaborators of one handler run: the
transcription call, the chat-completion call, `JSON.parse` (`none` = throws),
`JSON.stringify`, and the datastore insert. -/
structure StageOutcomes where
  transcription : Except String String
  completion : Except String String
  parseJson : String → Option AnalysisJson
  stringifyJson : AnalysisJson → String
  insertRow : InsertInput → Except String DbRow

/-- Observable events of one handler run, in order: the two API calls, the
attempted datastore insert (with the exact field set passed to
`insertEntry`), and the `finally`-block `fs.unlinkSync` of the uploaded
file. -/
inductive Event where
  | transcribeCall
  | completionCall
  | insertAttempt (inp : InsertInput)
  | unlinkFile
  deriving DecidableEq, Repr

/-- The HTTP response of one handler run. -/
inductive HandlerResponse where
  | ok200
  | err500
  | noFile400
  deriving DecidableEq, Repr

/-- Trace of one handler run: emitted events plus the response. -/
structure HandlerRun where
  events : List Event
  response : HandlerResponse
  deriving DecidableEq, Repr

/-- The `insertEntry` argument built by the journal handler: `user_id` is
not passed (absent), missing analysis fields flow through unchanged, and the
token/cost heuristic is applied to the transcript and the serialized
analysis. -/
def mkJournalInsert (filePath text : String) (a : AnalysisJson)
    (serialized : String) (projectId : Option String) (elapsedMs : Int) :
    InsertInput :=
  { user_id := none
    mood := a.mood
    summary := a.summary
    transcript := some text
    advice := a.advice
    audio_path := some filePath
    model_asr := some "gpt-4o-mini-transcribe"
    model_analysis := some "gpt-4o-mini"
    ms_elapsed := some elapsedMs
    project_id := projectId
    tokens_input := some ((estimateTokensIn text : Nat) : Int)
    tokens_output := some ((estimateTokensOut serialized : Nat) : Int)
    duration_seconds := none
    cost_estimate_usd := some (estimateCostUsd text serialized) }

/-- Embedding of the `POST /api/journal` handler: no uploaded file short
circuits with 400 before the `try`; otherwise transcribe, analyze,
`JSON.parse`, estimate and insert in order inside the `try`, any thrown
error is caught as a 500 response, and the `finally` block unlinks the
uploaded file on every path that entered the `try`. -/
def journalHandler (file : Option String) (o : StageOutcomes)
    (projectId : Option String) (elapsedMs : Int) : HandlerRun :=
  match file with
  | none => { events := [], response := .noFile400 }
  | some filePath =>
    match o.transcription with
    | .error _ =>
        { events := [.transcribeCall, .unlinkFile], response := .err500 }
    | .ok text =>
      match o.completion with
      | .error _ =>
          { events := [.transcribeCall, .completionCall, .unlinkFile]
            response := .err500 }
      | .ok content =>
        match o.parseJson content with
        | none =>
            { events := [.transcribeCall, .completionCall, .unlinkFile]
              response := .err500 }
        | some a =>
          match o.insertRow (mkJournalInsert filePath text a
              (o.stringifyJson a) projectId elapsedMs) with
          | .error _ =>
              { events := [.transcribeCall, .completionCall,
                  .insertAttempt (mkJournalInsert filePath text a
                    (o.stringifyJson a) projectId elapsedMs), .unlinkFile]
                response := .err500 }
          | .ok _ =>
              { events := [.transcribeCall, .completionCall,
                  .insertAttempt (mkJournalInsert filePath text a
                    (o.stringifyJson a) projectId elapsedMs), .unlinkFile]
                response := .ok200 }

/-- Number of `finally`-block unlink events in a handler trace. -/
def unlinkCount (evs : List Event) : Nat :=
  evs.countP (fun ev => match ev with | .unlinkFile => true | _ => false)

/-- The insert arguments attempted during a handler trace, in order. -/
def insertedInputs (evs : List Event) : List InsertInput :=
  evs.filterMap (fun ev => match ev with
    | .insertAttempt inp => some inp
    | _ => none)

/-! ## code/transcribe.js: transcription retry wrapper -/

/-- The error shape inspected by the retry wrapper: `err.code`,
`err.status`, `err.name` and `err.message` (each possibly absent). -/
structure JsError where
  code : Option String
  status : Option Nat
  name : Option String
  message : String
  deriving DecidableEq, Repr

/-- A value of the heterogeneous `code` variable of the catch block, which
may hold a string code or a numeric HTTP status. -/
inductive ErrCode where
  | strCode (s : String)
  | numCode (n : Nat)
  deriving DecidableEq, Repr

/-- The expression `err?.code ?? err?.status ?? err?.name`. -/
def codeOf (e : JsError) : Option ErrCode :=
  match e.code with
  | some c => some (.strCode c)
  | none =>
    match e.status with
    | some n => some (.numCode n)
    | none => e.name.map .strCode

/-- The transient-keyword heuristic
`/network|fetch|timeout|socket|dns|proxy/i.test(msg)`. -/
def transientMsg (m : String) : Bool :=
  ciMatches "network" m || ciMatches "fetch" m || ciMatches "timeout" m ||
    ciMatches "socket" m || ciMatches "dns" m || ciMatches "proxy" m

/-- The retryability classification of the catch block: the mixed
string/number array membership test on `code`, or the transient-keyword
heuristic on the message. -/
def retriable (e : JsError) : Bool :=
  (match codeOf e with
   | some (.strCode s) =>
       (["ECONNRESET", "ETIMEDOUT", "ENOTFOUND", "EAI_AGAIN"] :
         List String).contains s
   | some (.numCode n) => ([408, 429, 500, 502, 503, 504] : List Nat).contains n
   | none => false) || transientMsg e.message

deriving instance DecidableEq for Except

/-- Observable outcome of one `transcribeWithRetry` run: the returned
transcript or the thrown error (`Except.error none` models the
`throw lastErr` with `lastErr` still `undefined`, reachable only with zero
attempts), the number of `streamFactory()` invocations, and the argument of
each `sleep` call in order. -/
structure RetryTrace where
  result : Except (Option JsError) String
  factoryCalls : Nat
  sleepsMs : List Nat
  deriving DecidableEq, Repr

/-- One step of the `for (let i = 1; i <= attempts; i++)` loop of
`transcribeWithRetry`.  `transport i` is the outcome of the transcription
call of attempt `i` (each attempt first obtains a fresh source from the
factory, counted in `calls`).  On failure the error is kept as `lastErr`;
when `i < attempts` and the error is retryable the loop sleeps
`1000 * i` milliseconds and continues, otherwise it breaks and the last
error is thrown. -/
def retryFrom (transport : Nat → Except JsError String) (attempts : Nat) :
    Nat → Nat → Nat → List Nat → Option JsError → RetryTrace
  | 0, _, calls, sleeps, lastErr =>
      { result := .error lastErr, factoryCalls := calls, sleepsMs := sleeps }
  | remaining + 1, i, calls, sleeps, _ =>
    match transport i with
    | .ok t =>
        { result := .ok t, factoryCalls := calls + 1, sleepsMs := sleeps }
    | .error e =>
      if i < attempts ∧ retriable e = true then
        retryFrom transport attempts remaining (i + 1) (calls + 1)
          (sleeps ++ [1000 * i]) (some e)
      else
        { result := .error (some e), factoryCalls := calls + 1
          sleepsMs := sleeps }

/-- Embedding of `transcribeWithRetry(streamFactory, attempts = 3)`: run the
attempt loop from attempt 1 with no calls, no sleeps and no last error. -/
def transcribeWithRetry (transport : Nat → Except JsError String)
    (attempts : Nat) : RetryTrace :=
  retryFrom transport attempts attempts 1 0 [] none

/-! ## Concrete fixtures used by witnesses and counterexamples -/

/-- Row constructor for fixtures: every column the fixture does not care
about is `NULL`. -/
def mkRow (id : String) (t : Nat) (u : Option String) (m : Option Int) :
    DbRow :=
  { id := id, created_at := t, user_id := u, mood := m, summary := none,
    transcript := none, advice := none, audio_path := none, model_asr := none,
    model_analysis := none, ms_elapsed := none, project_id := none,
    tokens_input := none, tokens_output := none, duration_seconds := none,
    cost_estimate_usd := none }

/-- Fixture for the aggregation example: tenant `u`; nothing on day 0, moods
4 and 6 on day 1, mood 8 on day 2 (timestamps inside those days). -/
def c5db : List DbRow :=
  [mkRow "a" (86400 + 50) (some "u") (some 4),
   mkRow "b" (86400 + 99) (some "u") (some 6),
   mkRow "c" (2 * 86400 + 10) (some "u") (some 8)]

/-- A transcript fixture of exactly 400 characters. -/
def c6transcript : String := String.mk (List.replicate 400 'a')

/-- A serialized-analysis fixture of exactly 80 characters. -/
def c6serialized : String := String.mk (List.replicate 80 'b')

/-- A fake transport that fails with a retryable connection reset on
attempts 1 and 2 and succeeds on attempt 3. -/
def c8transport : Nat → Except JsError String := fun i =>
  if i ≤ 2 then .error ⟨some "ECONNRESET", none, none, "socket hang up"⟩
  else .ok "hello world"

/-- A stored-row fixture returned by the fake datastore. -/
def c4row : DbRow := mkRow "row-1" 0 none none

/-- Stage outcomes where every external call succeeds but the analysis text
parses to a JSON object with none of the required fields. -/
def c4outcomes : StageOutcomes :=
  { transcription := .ok "good day"
    completion := .ok "{}"
    parseJson := fun _ => some { mood := none, summary := none, advice := none }
    stringifyJson := fun _ => "{}"
    insertRow := fun _ => .ok c4row }

/-- Stage outcomes where the analysis text fails to parse as JSON. -/
def c4failOutcomes : StageOutcomes :=
  { c4outcomes with parseJson := fun _ => none }

/-! ## Helper lemmas -/

/-- The nonempty case of `avgOrZero` is the arithmetic mean `sum / count`. -/
theorem avgOrZero_eq_mean (ms : List Int) (h : ¬ ms.isEmpty) :
    avgOrZero ms = ((ms.sum : Int) : ℚ) / ((ms.length : Nat) : ℚ) := by
  simp only [avgOrZero, h, if_neg, Bool.false_eq_true, not_false_iff]
  rw [Rat.divInt_eq_div]
  norm_num

/-- Unfolding equation of one iteration of the retry loop. -/
theorem retryFrom_succ (transport : Nat → Except JsError String)
    (att r i c : Nat) (s : List Nat) (l : Option JsError) :
    retryFrom transport att (r + 1) i c s l =
      match transport i with
      | .ok t => { result := .ok t, factoryCalls := c + 1, sleepsMs := s }
      | .error e =>
        if i < att ∧ retriable e = true then
          retryFrom transport att r (i + 1) (c + 1) (s ++ [1000 * i]) (some e)
        else
          { result := .error (some e), factoryCalls := c + 1, sleepsMs := s } :=
  rfl

/-- A successful attempt returns its transcript at once. -/
theorem retryFrom_step_ok (transport : Nat → Except JsError String)
    (att r i c : Nat) (s : List Nat) (l : Option JsError) (t : String)
    (h : transport i = .ok t) :
    retryFrom transport att (r + 1) i c s l =
      { result := .ok t, factoryCalls := c + 1, sleepsMs := s } := by
  rw [retryFrom_succ, h]

/-- A retryable failure before the last attempt sleeps `1000 * i` and moves
to the next attempt. -/
theorem retryFrom_step_retry (transport : Nat → Except JsError String)
    (att r i c : Nat) (s : List Nat) (l : Option JsError) (e : JsError)
    (h : transport i = .error e) (hi : i < att) (hr : retriable e = true) :
    retryFrom transport att (r + 1) i c s l =
      retryFrom transport att r (i + 1) (c + 1) (s ++ [1000 * i]) (some e) := by
  rw [retryFrom_succ, h]
  exact if_pos ⟨hi, hr⟩

/-- Two requested day counts with the same normalized value give the same
daily mood result. -/
theorem getDailyMood_congr (db : List DbRow) (now : Nat) (a b : Int)
    (uq : Option String) (h : clampDays a = clampDays b) :
    getDailyMood db now a uq = getDailyMood db now b uq := by
  unfold getDailyMood
  rw [h]

/-! ## Claims -/

/-- Claim C1.  On the tenant-filtered path the aggregation does return, for
every requested day count in `[1, 90]`, exactly `days` points, one calendar
day apart in ascending order with the last point being the current day; but
with no tenant filter supplied the query always fails with a bind-parameter
mismatch (the SQL references two placeholders while one value is bound), so
the claim's unfiltered half does not hold — the code, not the claim, is at
fault, as the stats route calls `getDailyMood(days)` unfiltered and the
source comments call `userId` optional. -/
theorem c1_daily_window (db : List DbRow) (now : Nat) (u : String)
    (days : Int) (hu : u ≠ "") (h1 : 1 ≤ days) (h2 : days ≤ 90) :
    (∃ rows, getDailyMood db now days (some u) = Except.ok rows ∧
        rows.length = days.toNat ∧
        (∀ i, ∀ h : i < rows.length,
          rows[i].day = todayIndex now - days + 1 + (i : Int)) ∧
        (∀ r, rows.getLast? = some r → r.day = todayIndex now)) ∧
    getDailyMood db now days none =
      Except.error
        "bind message supplies 1 parameters, but prepared statement requires 2" := by
  have htn : ((days.toNat : Int)) = days := Int.toNat_of_nonneg (by omega)
  have hmax : clampDays days = days := by
    unfold clampDays
    rw [if_neg (show ¬ days = 0 by omega)]
    omega
  have hlen : (dailyMoodRows db (todayIndex now) days.toNat (some u)).length =
      days.toNat := by
    simp only [dailyMoodRows, List.length_map, List.length_range]
  constructor
  · refine ⟨dailyMoodRows db (todayIndex now) days.toNat (some u), ?_, hlen,
      ?_, ?_⟩
    · simp only [getDailyMood, if_neg hu, hmax, if_true]
    · intro i h
      have hi : i < days.toNat := hlen ▸ h
      simp only [dailyMoodRows, List.getElem_map, List.getElem_range]
      omega
    · intro r hr
      rw [List.getLast?_eq_getElem?, hlen] at hr
      have hpos : 0 < days.toNat := by omega
      have hidx : days.toNat - 1 <
          (dailyMoodRows db (todayIndex now) days.toNat (some u)).length := by
        omega
      rw [List.getElem?_eq_getElem hidx] at hr
      rw [← Option.some.inj hr]
      simp only [dailyMoodRows, List.getElem_map, List.getElem_range]
      omega
  · simp only [getDailyMood]
    norm_num

/-- Witness for C1 at `days = 2`, tenant `t`, an empty table and instant 0. -/
theorem c1_daily_window_witness :
    (∃ rows, getDailyMood [] 0 2 (some "t") = Except.ok rows ∧
        rows.length = (2 : Int).toNat ∧
        (∀ i, ∀ h : i < rows.length,
          rows[i].day = todayIndex 0 - 2 + 1 + (i : Int)) ∧
        (∀ r, rows.getLast? = some r → r.day = todayIndex 0)) ∧
    getDailyMood [] 0 2 none =
      Except.error
        "bind message supplies 1 parameters, but prepared statement requires 2" :=
  c1_daily_window [] 0 "t" 2 (by decide) (by decide) (by decide)

/-- Claim C2, counterexample: a requested day count of 0 is replaced by the
default 14 before clamping (`Number(0) || 14`), so `dailyMood(0)` is a
14-point series, not the 1-point series of `dailyMood(1)`. -/
theorem c2_clamp_counterexample :
    getDailyMood [] 0 0 (some "t") ≠ getDailyMood [] 0 1 (some "t") := by
  decide

/-- Claim C2 as amended: values above 90 clamp to 90 and negative values
clamp to 1, without rejecting the request, but the value 0 is replaced by
the default 14 before the clamp, so `dailyMood(0) = dailyMood(14)` (not
`dailyMood(1)`) while `dailyMood(1000) = dailyMood(90)` holds as claimed. -/
theorem c2_clamp_amended (db : List DbRow) (now : Nat) (uq : Option String)
    (days : Int) (hneg : days < 0) :
    getDailyMood db now 0 uq = getDailyMood db now 14 uq ∧
    getDailyMood db now 1000 uq = getDailyMood db now 90 uq ∧
    getDailyMood db now days uq = getDailyMood db now 1 uq := by
  refine ⟨getDailyMood_congr db now 0 14 uq (by decide),
    getDailyMood_congr db now 1000 90 uq (by decide),
    getDailyMood_congr db now days 1 uq ?_⟩
  unfold clampDays
  rw [if_neg (show ¬ days = 0 by omega), if_neg (show ¬ (1 : Int) = 0 by norm_num)]
  omega

/-- Witness for the amended C2 at `days = -5`, an empty table, instant 0. -/
theorem c2_clamp_amended_witness :
    getDailyMood [] 0 0 (some "t") = getDailyMood [] 0 14 (some "t") ∧
    getDailyMood [] 0 1000 (some "t") = getDailyMood [] 0 90 (some "t") ∧
    getDailyMood [] 0 (-5) (some "t") = getDailyMood [] 0 1 (some "t") :=
  c2_clamp_amended [] 0 (some "t") (-5) (by decide)

/-- Claim C3, counterexample: for the supplied mime `audio/flac` (matching
none of the table patterns) with original name `voice-note.flac`, the code
returns the original-name fallback, while the claim's table prescribes
`audio.mp3` for a non-matching mime. -/
theorem c3_filename_counterexample :
    apiFilenameHint (some "audio/flac") (some "voice-note.flac") =
      "voice-note.flac" ∧
    filenameHintClaim (some "audio/flac") (some "voice-note.flac") =
      "audio.mp3" ∧
    ("voice-note.flac" : String) ≠ "audio.mp3" := by
  decide

/-- Claim C3 as amended: the fixed mime table holds, except that a supplied
mime matching no pattern yields the fallback — `originalNameHint`, or
`audio.mp3` when that is absent or empty — exactly as when no mime is
supplied. -/
theorem c3_filename_amended (mime orig : Option String) :
    apiFilenameHint mime orig = filenameHintAmended mime orig := by
  cases mime with
  | none => rfl
  | some m =>
    by_cases hm : m = ""
    · subst hm
      simp [apiFilenameHint, guessApiFilename, filenameHintAmended,
        show ciMatches "mp4" "" = false from rfl,
        show ciMatches "aac" "" = false from rfl,
        show ciMatches "webm" "" = false from rfl,
        show ciMatches "ogg" "" = false from rfl,
        show ciMatches "opus" "" = false from rfl,
        show ciMatches "mpeg" "" = false from rfl,
        show ciMatches "mp3" "" = false from rfl,
        show ciMatches "wav" "" = false from rfl]
    · simp only [apiFilenameHint, guessApiFilename, filenameHintAmended,
        if_neg hm]

/-- Claim C4, counterexample: when the analysis text parses to a JSON object
with none of the required fields (`{}`), the pipeline does not abort — it
persists the entry (exactly one insert is attempted, with `mood` equal to
SQL `NULL`) and responds with success. -/
theorem c4_parse_counterexample :
    (journalHandler (some "up.webm") c4outcomes (some "proj") 5).response =
      HandlerResponse.ok200 ∧
    insertedInputs
        (journalHandler (some "up.webm") c4outcomes (some "proj") 5).events =
      [mkJournalInsert "up.webm" "good day" ⟨none, none, none⟩ "{}"
        (some "proj") 5] ∧
    (mkJournalInsert "up.webm" "good day" ⟨none, none, none⟩ "{}"
      (some "proj") 5).mood = none :=
  ⟨rfl, rfl, rfl⟩

/-- Claim C4 as amended: if the analysis text fails to parse as JSON the
pipeline aborts (a generic failure response, nothing persisted); but a text
that parses with missing required fields is not rejected — exactly one
insert is attempted and each missing field flows through as `NULL`, a
silent default. -/
theorem c4_parse_amended (o : StageOutcomes) (p : String) (pid : Option String)
    (el : Int) (t c : String)
    (ht : o.transcription = .ok t) (hc : o.completion = .ok c) :
    (o.parseJson c = none →
      (journalHandler (some p) o pid el).response = HandlerResponse.err500 ∧
      insertedInputs (journalHandler (some p) o pid el).events = []) ∧
    (∀ a, o.parseJson c = some a →
      insertedInputs (journalHandler (some p) o pid el).events =
        [mkJournalInsert p t a (o.stringifyJson a) pid el] ∧
      (mkJournalInsert p t a (o.stringifyJson a) pid el).mood = a.mood ∧
      (mkJournalInsert p t a (o.stringifyJson a) pid el).summary = a.summary ∧
      (mkJournalInsert p t a (o.stringifyJson a) pid el).advice = a.advice) := by
  constructor
  · intro hp
    simp [journalHandler, ht, hc, hp, insertedInputs]
  · intro a hp
    cases hi : o.insertRow (mkJournalInsert p t a (o.stringifyJson a) pid el) with
    | error e =>
      refine ⟨?_, rfl, rfl, rfl⟩
      simp [journalHandler, ht, hc, hp, hi, insertedInputs]
    | ok r =>
      refine ⟨?_, rfl, rfl, rfl⟩
      simp [journalHandler, ht, hc, hp, hi, insertedInputs]

/-- Witness for the amended C4: with a parse failure the run responds 500
and attempts no insert. -/
theorem c4_parse_amended_witness :
    (journalHandler (some "up.webm") c4failOutcomes (some "proj") 5).response =
      HandlerResponse.err500 ∧
    insertedInputs
        (journalHandler (some "up.webm") c4failOutcomes (some "proj") 5).events =
      [] :=
  (c4_parse_amended c4failOutcomes "up.webm" (some "proj") 5 "good day" "{}"
    rfl rfl).1 rfl

/-- Claim C5: on the tenant-filtered path, each day of the window reports
the arithmetic mean of the `mood` values of the entries whose creation
instant falls within that calendar day (0 when the day has none); and on
the concrete three-day fixture (oldest day empty, then moods 4 and 6, then
mood 8) the series is exactly `[{day-2, 0}, {day-1, 5}, {day0, 8}]`. -/
theorem c5_daily_average :
    (∀ (db : List DbRow) (now : Nat) (u : String) (days : Int), u ≠ "" →
      1 ≤ days → days ≤ 90 →
      getDailyMood db now days (some u) =
        Except.ok ((List.range days.toNat).map (fun (k : Nat) =>
          { day := todayIndex now - days + 1 + (k : Int)
            avg_mood :=
              if (moodsOn db (some u)
                  (todayIndex now - days + 1 + (k : Int))).isEmpty then 0
              else ((moodsOn db (some u)
                  (todayIndex now - days + 1 + (k : Int))).sum : ℚ) /
                ((moodsOn db (some u)
                  (todayIndex now - days + 1 + (k : Int))).length : ℚ) }))) ∧
    getDailyMood c5db 176400 3 (some "u") =
      Except.ok [⟨0, 0⟩, ⟨1, 5⟩, ⟨2, 8⟩] := by
  constructor
  · intro db now u days hu h1 h2
    have hmax : clampDays days = days := by
      unfold clampDays
      rw [if_neg (show ¬ days = 0 by omega)]
      omega
    simp only [getDailyMood, if_neg hu, hmax, if_true]
    congr 1
    unfold dailyMoodRows
    refine List.map_congr_left ?_
    intro k hk
    have hd : todayIndex now - ((days.toNat : Int) - 1) + (k : Int) =
        todayIndex now - days + 1 + (k : Int) := by
      have htn : ((days.toNat : Int)) = days := Int.toNat_of_nonneg (by omega)
      omega
    simp only [hd]
    by_cases he : (moodsOn db (some u)
        (todayIndex now - days + 1 + (k : Int))).isEmpty
    · simp [avgOrZero, he]
    · simp only [if_neg he, avgOrZero_eq_mean _ he]
  · decide

/-- Claim C6: with a 400-character transcript and an 80-character serialized
analysis at $0.60/$2.40 per million tokens, the estimate is
`tokensIn = 100`, `tokensOut = 20` and `costUsd = 0.0001`. -/
theorem c6_cost_example (t s : String) (ht : t.length = 400)
    (hs : s.length = 80) :
    estimateTokensIn t = 100 ∧ estimateTokensOut s = 20 ∧
    estimateCostUsd t s = 1 / 10000 := by
  refine ⟨?_, ?_, ?_⟩
  · simp [estimateTokensIn, ht]
  · simp [estimateTokensOut, hs]
  · simp only [estimateCostUsd, estimateTokensIn, estimateTokensOut, ht, hs,
      round4]
    norm_num [round_eq]

/-- Witness for C6 at concrete 400- and 80-character strings. -/
theorem c6_cost_example_witness :
    estimateTokensIn c6transcript = 100 ∧
    estimateTokensOut c6serialized = 20 ∧
    estimateCostUsd c6transcript c6serialized = 1 / 10000 :=
  c6_cost_example c6transcript c6serialized
    (by rw [show c6transcript.length = (List.replicate 400 'a').length from rfl,
      List.length_replicate])
    (by rw [show c6serialized.length = (List.replicate 80 'b').length from rfl,
      List.length_replicate])

/-- Claim C7: holding the serialized analysis fixed, a transcript at least
as long never yields a smaller cost estimate. -/
theorem c7_cost_monotone (t1 t2 s : String) (h : t1.length ≤ t2.length) :
    estimateCostUsd t1 s ≤ estimateCostUsd t2 s := by
  have htok : (estimateTokensIn t1 : ℚ) ≤ (estimateTokensIn t2 : ℚ) := by
    have hn : estimateTokensIn t1 ≤ estimateTokensIn t2 :=
      Nat.div_le_div_right (Nat.add_le_add_right h 3)
    exact_mod_cast hn
  unfold estimateCostUsd round4
  have hr : round (((estimateTokensIn t1 : ℚ) / 1000000 * (6 / 10) +
      (estimateTokensOut s : ℚ) / 1000000 * (24 / 10)) * 10000) ≤
      round (((estimateTokensIn t2 : ℚ) / 1000000 * (6 / 10) +
      (estimateTokensOut s : ℚ) / 1000000 * (24 / 10)) * 10000) := by
    rw [round_eq, round_eq]
    exact Int.floor_le_floor (by nlinarith)
  have hq : ((round (((estimateTokensIn t1 : ℚ) / 1000000 * (6 / 10) +
      (estimateTokensOut s : ℚ) / 1000000 * (24 / 10)) * 10000) : ℤ) : ℚ) ≤
      ((round (((estimateTokensIn t2 : ℚ) / 1000000 * (6 / 10) +
      (estimateTokensOut s : ℚ) / 1000000 * (24 / 10)) * 10000) : ℤ) : ℚ) := by
    exact_mod_cast hr
  linarith

/-- Witness for C7 at transcripts of lengths 2 and 4. -/
theorem c7_cost_monotone_witness :
    estimateCostUsd "ab" "x" ≤ estimateCostUsd "abcd" "x" :=
  c7_cost_monotone "ab" "abcd" "x" (by decide)

/-- Claim C8: a transport failing retryably on attempts 1 and 2 and
succeeding on attempt 3 makes `transcribeWithRetry` (3 attempts) return the
transcript, call the source factory exactly 3 times, and sleep 1000 ms then
2000 ms between the attempts. -/
theorem c8_retry_success (transport : Nat → Except JsError String)
    (e1 e2 : JsError) (t : String)
    (h1 : transport 1 = .error e1) (h2 : transport 2 = .error e2)
    (h3 : transport 3 = .ok t)
    (hr1 : retriable e1 = true) (hr2 : retriable e2 = true) :
    transcribeWithRetry transport 3 =
      { result := .ok t, factoryCalls := 3, sleepsMs := [1000, 2000] } := by
  show retryFrom transport 3 (2 + 1) 1 0 [] none = _
  rw [retryFrom_step_retry transport 3 2 1 0 [] none e1 h1 (by norm_num) hr1]
  show retryFrom transport 3 (1 + 1) 2 1 [1000] (some e1) = _
  rw [retryFrom_step_retry transport 3 1 2 1 [1000] (some e1) e2 h2
    (by norm_num) hr2]
  show retryFrom transport 3 (0 + 1) 3 2 [1000, 2000] (some e2) = _
  rw [retryFrom_step_ok transport 3 0 3 2 [1000, 2000] (some e2) t h3]

/-- Witness for C8 on the concrete two-resets-then-success transport. -/
theorem c8_retry_success_witness :
    transcribeWithRetry c8transport 3 =
      { result := .ok "hello world", factoryCalls := 3
        sleepsMs := [1000, 2000] } :=
  c8_retry_success c8transport
    ⟨some "ECONNRESET", none, none, "socket hang up"⟩
    ⟨some "ECONNRESET", none, none, "socket hang up"⟩
    "hello world" rfl rfl rfl (by decide) (by decide)

/-- Claim C9: whatever the outcome of each stage (transcription, analysis,
parsing, persistence), a handler run with an uploaded file unlinks the
temporary audio file exactly once. -/
theorem c9_unlink_once (p : String) (o : StageOutcomes) (pid : Option String)
    (el : Int) :
    unlinkCount (journalHandler (some p) o pid el).events = 1 := by
  cases ht : o.transcription with
  | error e => simp [journalHandler, ht, unlinkCount]
  | ok text =>
    cases hc : o.completion with
    | error e => simp [journalHandler, ht, hc, unlinkCount]
    | ok content =>
      cases hp : o.parseJson content with
      | none => simp [journalHandler, ht, hc, hp, unlinkCount]
      | some a =>
        cases hi : o.insertRow (mkJournalInsert p text a (o.stringifyJson a)
            pid el) with
        | error e => simp [journalHandler, ht, hc, hp, hi, unlinkCount]
        | ok r => simp [journalHandler, ht, hc, hp, hi, unlinkCount]

/-- Claim C10: `insertEntry` persists every optional field exactly as given
(`none` — absent, `undefined` or `null` in JavaScript — becomes SQL `NULL`,
never a non-null default, and nothing is rejected), and the record returned
is exactly the row appended to the table. -/
theorem c10_insert_passthrough (e : InsertInput) (db : List DbRow)
    (id : String) (createdAt : Nat) :
    (insertEntry e db id createdAt).2 =
      db ++ [(insertEntry e db id createdAt).1] ∧
    (insertEntry e db id createdAt).1.id = id ∧
    (insertEntry e db id createdAt).1.created_at = createdAt ∧
    (insertEntry e db id createdAt).1.user_id = e.user_id ∧
    (insertEntry e db id createdAt).1.mood = e.mood ∧
    (insertEntry e db id createdAt).1.summary = e.summary ∧
    (insertEntry e db id createdAt).1.transcript = e.transcript ∧
    (insertEntry e db id createdAt).1.advice = e.advice ∧
    (insertEntry e db id createdAt).1.audio_path = e.audio_path ∧
    (insertEntry e db id createdAt).1.model_asr = e.model_asr ∧
    (insertEntry e db id createdAt).1.model_analysis = e.model_analysis ∧
    (insertEntry e db id createdAt).1.ms_elapsed = e.ms_elapsed ∧
    (insertEntry e db id createdAt).1.project_id = e.project_id ∧
    (insertEntry e db id createdAt).1.tokens_input = e.tokens_input ∧
    (insertEntry e db id createdAt).1.tokens_output = e.tokens_output ∧
    (insertEntry e db id createdAt).1.duration_seconds = e.duration_seconds ∧
    (insertEntry e db id createdAt).1.cost_estimate_usd = e.cost_estimate_usd :=
  ⟨rfl, rfl, rfl, rfl, rfl, rfl, rfl, rfl, rfl, rfl, rfl, rfl, rfl, rfl, rfl,
    rfl, rfl⟩
